import Mathlib

/-!
Shallow embedding of `src/Gemini2_0_nodes.py` (ComfyUI-Gemini-API).

The repository defines two ComfyUI nodes, `GeminiImageGenerator` and
`GeminiMultiImageGenerator`.  The two classes duplicate `get_api_key` and
`generate_empty_image` verbatim, so those are embedded once and shared.
External effects (file I/O success, `random.randint`, base64 decoding,
PIL image decoding / resampling / PNG encoding, and the remote Gemini
call) are modelled as oracles in an `Env` record: the Python code treats
each of them as a black box whose failure is caught and turned into a
value, which is exactly what an `Option`-returning oracle expresses.
Machine floats are idealised as rationals (the float literal `0.2`
becomes `1/5`; pixel bytes are `Fin 256` scaled by `/255`).
-/

/-- A ComfyUI image tensor: a shape list (the code only ever inspects
`len(shape)` and `shape[i]`) together with the sample at each
(batch, y, x, channel) index. -/
structure Tensor where
  shape : List Nat
  px : Nat → Nat → Nat → Nat → ℚ

/-- A decoded PIL bitmap after the `convert('RGB')` step: width, height and a
byte-valued pixel function (y, x, channel). -/
structure Bitmap where
  w : Nat
  h : Nat
  px : Nat → Nat → Nat → Fin 256

/-- Embeds `np.array(pil_image).astype(np.float32) / 255.0` followed by
`unsqueeze(0)`: shape `[1, H, W, 3]`, sample = byte / 255. -/
def toTensor (b : Bitmap) : Tensor :=
  ⟨[1, b.h, b.w, 3], fun _ y x c => (b.px y x c : ℚ) / 255⟩

/-- Embeds `generate_empty_image` (identical in both classes):
`np.ones((height, width, 3), dtype=np.float32) * 0.2` then `unsqueeze(0)`,
giving shape `[1, height, width, 3]` with every sample `0.2 = 1/5`. -/
def generate_empty_image (width height : Nat) : Tensor :=
  ⟨[1, height, width, 3], fun _ _ _ _ => 1/5⟩

/-- The characters Python's default `str.strip()` removes at either end
(ASCII whitespace; the keys at issue are ASCII). -/
def isPySpace (c : Char) : Bool :=
  c = ' ' || c = '\t' || c = '\n' || c = '\r' || c = '\x0b' || c = '\x0c'

/-- Python `str.strip()` on the underlying character list. -/
def pyStripL (l : List Char) : List Char :=
  ((l.dropWhile isPySpace).reverse.dropWhile isPySpace).reverse

/-- Python `str.strip()` on strings. -/
def pyStrip (s : String) : String :=
  ⟨pyStripL s.data⟩

/-- Oracle outcomes for the two file operations inside `get_api_key`
(the Python code wraps each in its own try/except). -/
structure KeyEnv where
  writeOk : Bool
  readOk : Bool

/-- Embeds `get_api_key` (identical in both classes).  The key file is the
`fs : Option String` argument (`none` = file does not exist); the result is
(returned key, new file contents, log messages appended).
Python condition `user_input_key and len(user_input_key) > 10` is the
truthiness test plus the length test; `f.read().strip()` is `pyStrip`. -/
def get_api_key (env : KeyEnv) (fs : Option String) (user_input_key : String) :
    String × Option String × List String :=
  if user_input_key ≠ "" ∧ user_input_key.length > 10 then
    if env.writeOk then
      (user_input_key, some user_input_key,
        ["Using user input API key", "API key saved to node directory"])
    else
      (user_input_key, fs,
        ["Using user input API key", "Failed to save API key"])
  else
    match fs with
    | some content =>
      if env.readOk then
        let saved_key := pyStrip content
        if saved_key ≠ "" ∧ saved_key.length > 10 then
          (saved_key, fs, ["Using saved API key"])
        else
          ("", fs, ["Warning: No valid API key provided"])
      else
        ("", fs, ["Failed to read saved API key",
                  "Warning: No valid API key provided"])
    | none => ("", fs, ["Warning: No valid API key provided"])

/-- Embeds the seed handling of both entry operations:
`if seed == 0: seed = random.randint(1, 2**31 - 1)`.  The stdlib call
`random.randint` is external; its value is modelled from the oracle natural
`r` as `1 + r % (2^31 - 1)`, which ranges over exactly `[1, 2^31 - 1]`. -/
def resolveSeed (r seed : Nat) : Nat :=
  if seed = 0 then 1 + r % (2^31 - 1) else seed

/-- Embeds `types.GenerateContentConfig(temperature=..., seed=...,
response_modalities=['Text', 'Image'])`. -/
structure GenConfig where
  temperature : ℚ
  seed : Nat
  response_modalities : List String

/-- The generation configuration built by both entry operations. -/
def buildGenConfig (temperature : ℚ) (seed : Nat) : GenConfig :=
  ⟨temperature, seed, ["Text", "Image"]⟩

/-- Decimal digits of a natural number, as Python string interpolation
renders it. -/
def natChars (n : Nat) : List Char :=
  (Nat.repr n).data

/-- Embeds the orientation selection of both entry operations.  The Python
code compares the float `width / height` against 1; for the positive integer
widths and heights the node accepts this is exactly the integer comparison of
`width` with `height` (the relative gap is at least `1/height`, far above
float64 rounding error). -/
def orientation (width height : Nat) : List Char :=
  if height < width then "landscape (horizontal)".data
  else if width < height then "portrait (vertical)".data
  else "square".data

/-- The suffix of the prompt after the user text, shared by both entry
operations. -/
def promptTail (width height : Nat) : List Char :=
  ". Generate the image in ".data ++ orientation width height ++
  " orientation with exact dimensions of ".data ++ natChars width ++
  "x".data ++ natChars height ++
  " pixels. Ensure the composition fits properly within these dimensions without stretching or distortion.".data

/-- Embeds the `simple_prompt` f-string of both entry operations. -/
def simple_prompt (prompt : List Char) (width height : Nat) : List Char :=
  "Create a detailed image of: ".data ++ prompt ++ promptTail width height

/-- Substring test on character lists: some split point exposes `small`. -/
def hasSubstr (big small : List Char) : Bool :=
  (List.range (big.length + 1)).any fun i => (big.drop i).take small.length == small

/-- Substring test on strings. -/
def hasSubstrS (big small : String) : Bool :=
  hasSubstr big.data small.data

/-- A content part of the outbound request (`inline_data` dict or text). -/
inductive ReqPart where
  | inline (mime : String) (data : List Nat)
  | text (s : List Char)

/-- The `contents` argument of the API call: the single-image node passes
either a bare prompt string or a part list; the multi node always a list. -/
inductive ReqContents where
  | str (s : List Char)
  | parts (l : List ReqPart)

/-- The arguments of `client.models.generate_content`. -/
structure ApiCall where
  model : String
  contents : ReqContents
  config : GenConfig

/-- An `inline_data` field of a response part. -/
structure InlineData where
  mime : String
  data : List Nat

/-- A response part; Python checks `hasattr`/`is not None` on `text` first,
`inline_data` second, so both fields are optional. -/
structure RespPart where
  text : Option String
  inline : Option InlineData

/-- A response candidate (only `content.parts` is ever read). -/
structure Candidate where
  parts : List RespPart

/-- Outcome of the remote call: any exception inside the `try` block is
caught by the top-level `except` and modelled as `raised`. -/
inductive ApiOutcome where
  | raised (msg : String)
  | ok (candidates : List Candidate)

/-- Oracles for all external effects of one invocation: file I/O,
`random.randint`, `base64.b64decode`, PIL decoding / resampling / PNG
encoding, and the remote API call. -/
structure Env where
  key : KeyEnv
  rand : Nat
  b64 : List Nat → Option (List Nat)
  decode : List Nat → Option Bitmap
  resize : Nat → Nat → Bitmap → Bitmap
  encodePNG : Tensor → Option (List Nat)
  api : ApiCall → ApiOutcome

/-- A resampling oracle is faithful to PIL when the output has the
requested dimensions. -/
def resizeWF (env : Env) : Prop :=
  ∀ w h b, (env.resize w h b).w = w ∧ (env.resize w h b).h = h

/-- Both entry operations call `client.models.generate_content` with the
hardcoded model string, never with the `model` input. -/
def buildApiCall (contents : ReqContents) (cfg : GenConfig) : ApiCall :=
  ⟨"models/gemini-2.0-flash-exp", contents, cfg⟩

/-- The byte prefix `69 56 42 4f 52` (ASCII `iVBOR`) that the code sniffs
for Base64-encoded PNG data. -/
def pngSig : List Nat := [0x69, 0x56, 0x42, 0x4f, 0x52]

/-- Embeds the Base64 workaround: when the data is longer than 8 bytes and
starts with the signature, `b64decode` is attempted (its failure is caught
and the original data kept). -/
def effData (env : Env) (data : List Nat) : List Nat :=
  if data.length > 8 ∧ data.take 5 = pngSig then
    match env.b64 data with
    | some nd => nd
    | none => data
  else data

/-- Embeds `"\n".join(self.log_messages)`. -/
def joinLogs (logs : List String) : String := String.intercalate "\n" logs

/-- Log entry for a text part: the preview is truncated to 100 characters
only when longer (the short case logs the raw text with no marker). -/
def textLog (s : String) : String :=
  if s.length > 100 then "API returned text: " ++ (⟨s.data.take 100⟩ : String) ++ "..." else s

/-- Diagnostic logs for the byte-prefix sniffing step (the hex dump itself
is abbreviated; only presence and order of entries matter to the claims). -/
def sniffLogs (env : Env) (data : List Nat) : List String :=
  if data.length > 8 then
    ["First 8 bytes of image data logged"] ++
    (if data.take 5 = pngSig then
      ["Detected Base64 encoded PNG, decoding..."] ++
      (match env.b64 data with
       | some nd => ["Base64 decoding successful, new data length: " ++ Nat.repr nd.length]
       | none => ["Base64 decoding failed"])
     else [])
  else []

/-- Log entry describing an inline-data part. -/
def dataInfoLog (d : InlineData) : String :=
  "Image data type: bytes, MIME type: " ++ d.mime ++ ", data length: " ++ Nat.repr d.data.length

/-- Log entry written by `generate_empty_image` (only visible in the text
when the empty image is created before the final text is assembled, i.e. in
the single-image node's per-part decode-failure branch). -/
def emptyImageLog : String := "Created ComfyUI compatible empty image"

/-- Log entry after a successful `Image.open`. -/
def openedLog (b : Bitmap) : String :=
  "Successfully opened image: " ++ Nat.repr b.w ++ "x" ++ Nat.repr b.h

/-- Log entry after tensor conversion. -/
def convertedLog : String := "Image successfully converted to tensor"

/-- One loop iteration of the single-image node's response scan
(lines 274-338): `Sum.inl` is the early `return` with the success pair,
`Sum.inr` carries the updated accumulators. -/
def step1 (env : Env) (width height : Nat) (p : RespPart) (rt : String)
    (logs : List String) : (Tensor × String) ⊕ (String × List String) :=
  match p.text with
  | some s => Sum.inr (rt ++ s, logs ++ [textLog s])
  | none =>
    match p.inline with
    | none => Sum.inr (rt, logs)
    | some d =>
      let logs1 := logs ++ ["Processing API returned data", dataInfoLog d] ++
        sniffLogs env d.data
      match env.decode (effData env d.data) with
      | some bmp =>
        let bmp2 := if bmp.w ≠ width ∨ bmp.h ≠ height then env.resize width height bmp
          else bmp
        let logs2 := logs1 ++ [openedLog bmp, convertedLog]
        Sum.inl (toTensor bmp2,
          "## Processing Log\n" ++ joinLogs logs2 ++ "\n\n## API Response\n" ++ rt)
      | none =>
        Sum.inr (rt, logs1 ++ ["Failed to open image with BytesIO",
          "Unable to process image data, using default empty image", emptyImageLog])

/-- The single-image node's response scan over the first candidate's parts. -/
def scan1 (env : Env) (width height : Nat) :
    List RespPart → String → List String → (Tensor × String) ⊕ (String × List String)
  | [], rt, logs => Sum.inr (rt, logs)
  | p :: rest, rt, logs =>
    match step1 env width height p rt logs with
    | Sum.inl res => Sum.inl res
    | Sum.inr (rt2, logs2) => scan1 env width height rest rt2 logs2

/-- One loop iteration of the multi-image node's response scan
(lines 591-656): identical to `step1` except that the decode-failure branch
does not create an empty image (so no `emptyImageLog`). -/
def stepM (env : Env) (width height : Nat) (p : RespPart) (rt : String)
    (logs : List String) : (Tensor × String) ⊕ (String × List String) :=
  match p.text with
  | some s => Sum.inr (rt ++ s, logs ++ [textLog s])
  | none =>
    match p.inline with
    | none => Sum.inr (rt, logs)
    | some d =>
      let logs1 := logs ++ ["Processing API returned data", dataInfoLog d] ++
        sniffLogs env d.data
      match env.decode (effData env d.data) with
      | some bmp =>
        let bmp2 := if bmp.w ≠ width ∨ bmp.h ≠ height then env.resize width height bmp
          else bmp
        let logs2 := logs1 ++ [openedLog bmp, convertedLog]
        Sum.inl (toTensor bmp2,
          "## Processing Log\n" ++ joinLogs logs2 ++ "\n\n## API Response\n" ++ rt)
      | none =>
        Sum.inr (rt, logs1 ++ ["Failed to open image with BytesIO",
          "Unable to process image data, using default empty image"])

/-- The multi node's response scan; `image_found` is set to `True` as soon as
the inline-data branch is entered, even when the decode then fails. -/
def scanM (env : Env) (width height : Nat) :
    List RespPart → String → List String → Bool →
      (Tensor × String) ⊕ (String × List String × Bool)
  | [], rt, logs, found => Sum.inr (rt, logs, found)
  | p :: rest, rt, logs, found =>
    let found2 := found || (p.text.isNone && p.inline.isSome)
    match stepM env width height p rt logs with
    | Sum.inl res => Sum.inl res
    | Sum.inr (rt2, logs2) => scanM env width height rest rt2 logs2 found2

/-- A part causes the early success return exactly when it is dispatched to
the inline branch (`text` absent, `inline_data` present) and the decode
oracle succeeds on its (possibly Base64-fixed) bytes. -/
def stopsB (env : Env) (p : RespPart) : Bool :=
  p.text.isNone && (match p.inline with
    | some d => (env.decode (effData env d.data)).isSome
    | none => false)

/-- The response text both loops accumulate while no part returns: the
concatenation, in order, of every part's text (`response_text += part.text`;
a part dispatched to the inline branch contributes nothing). -/
def accumText : List RespPart → String
  | [] => ""
  | p :: rest => (p.text.getD "") ++ accumText rest

/-- Embeds the single-image node's reference-image handling (lines 214-249):
the guard is `len(image.shape) == 4 and image.shape[0] == 1`; on any failure
the contents fall back to the bare prompt string.  PNG encoding of the valid
tensor is the `encodePNG` oracle (PIL conversion + save; its exception is
the `except img_error` branch).  Result: (contents, has_reference, logs). -/
def buildContents1 (env : Env) (sp : List Char) (image : Option Tensor) :
    ReqContents × Bool × List String :=
  match image with
  | none => (ReqContents.str sp, false, [])
  | some img =>
    if img.shape.length = 4 ∧ img.shape.headD 0 = 1 then
      match env.encodePNG img with
      | some bytes =>
        (ReqContents.parts [ReqPart.inline "image/png" bytes,
          ReqPart.text (sp ++ " Use this reference image as style guidance.".data)],
         true,
         ["Reference image processed successfully", "Reference image added to request"])
      | none => (ReqContents.str sp, false, ["Reference image processing error"])
    else
      (ReqContents.str sp, false, ["Reference image format incorrect"])

/-- Embeds `GeminiMultiImageGenerator.process_image` (lines 466-494): same
shape guard, returning the inline part or `none` plus its logs. -/
def process_image (env : Env) (image : Option Tensor) : Option ReqPart × List String :=
  match image with
  | none => (none, [])
  | some img =>
    if img.shape.length = 4 ∧ img.shape.headD 0 = 1 then
      match env.encodePNG img with
      | some bytes => (some (ReqPart.inline "image/png" bytes),
          ["Image processed successfully"])
      | none => (none, ["Image processing error"])
    else
      (none, ["Image format incorrect"])

/-- Embeds the multi node's loop over `[image1, image2, image3, image4]`:
kept parts in order, their count, and the accumulated logs (the per-index
number in the added-to-request message is abbreviated). -/
def collectImages (env : Env) : List (Option Tensor) → List ReqPart × Nat × List String
  | [] => ([], 0, [])
  | img :: rest =>
    match img with
    | none => collectImages env rest
    | some t =>
      let pr := process_image env (some t)
      let tail := collectImages env rest
      match pr.1 with
      | some pp => (pp :: tail.1, tail.2.1 + 1,
          pr.2 ++ ["Reference image added to request"] ++ tail.2.2)
      | none => (tail.1, tail.2.1, pr.2 ++ tail.2.2)

/-- Embeds the multi node's contents assembly: image parts first, then one
text part whose wording mentions the image count when it is positive. -/
def buildContentsM (env : Env) (sp : List Char) (images : List (Option Tensor)) :
    ReqContents × Nat × List String :=
  let col := collectImages env images
  let txt := if col.2.1 > 0 then
      sp ++ " Use these ".data ++ natChars col.2.1 ++
        " reference images as style/content guidance.".data
    else sp
  (ReqContents.parts (col.1 ++ [ReqPart.text txt]), col.2.1, col.2.2)

/-- The single-image node's interpretation of the first candidate's parts
and the code that follows the loop (lines 274-348): an early return wins;
otherwise the placeholder is paired with the accumulated text, replaced by
the fixed no-image-or-text message when empty (`image_found` is never set
to `True` in this node, so the post-loop block always runs). -/
def respond1 (env : Env) (width height : Nat) (logs2 : List String)
    (parts : List RespPart) : Tensor × String :=
  match scan1 env width height parts "" logs2 with
  | Sum.inl res => res
  | Sum.inr (rt, logsF) =>
    let logsG := logsF ++ ["No image data found in API response, returning text only"]
    let rt2 := if rt = "" then "API did not return any image or text" else rt
    (generate_empty_image width height,
      "## Processing Log\n" ++ joinLogs logsG ++ "\n\n## API Response\n" ++ rt2)

/-- The multi node's interpretation of the first candidate's parts and the
code after the loop (lines 591-666): when `image_found` is true the fixed
message and the no-image log are skipped even if no text was accumulated. -/
def respondM (env : Env) (width height : Nat) (logs2 : List String)
    (parts : List RespPart) : Tensor × String :=
  match scanM env width height parts "" logs2 false with
  | Sum.inl res => res
  | Sum.inr (rt, logsF, found) =>
    let logsG := if found then logsF
      else logsF ++ ["No image data found in API response, returning text only"]
    let rt2 := if found then rt
      else if rt = "" then "API did not return any image or text" else rt
    (generate_empty_image width height,
      "## Processing Log\n" ++ joinLogs logsG ++ "\n\n## API Response\n" ++ rt2)

/-- The fixed missing-key message (lines 173-175; apostrophes paraphrased). -/
def noKeyText : String :=
  "## Error\nError: No valid API key provided. Please enter an API key in the node or ensure a key has been saved.\n\n## Instructions\n1. Enter your Google API key in the node\n2. The key will be automatically saved to the node directory"

/-- Embeds `GeminiImageGenerator.generate_image` (lines 161-356).  The file
state `fs` is the key file; the `model` input is accepted but, like the
Python code, never used (the hardcoded string goes into `buildApiCall`).
Every Python `return` site maps to one branch here, so the function is
total: the no-exception half of the contract holds by construction. -/
def generate_image (env : Env) (fs : Option String)
    (prompt : List Char) (api_key model : String)
    (width height : Nat) (temperature : ℚ) (seed : Nat)
    (image : Option Tensor) : Tensor × String :=
  let kr := get_api_key env.key fs api_key
  if kr.1 = "" then
    (generate_empty_image width height, noKeyText)
  else
    let seed2 := resolveSeed env.rand seed
    let seedLog := if seed = 0 then "Generated random seed value: " ++ Nat.repr seed2
      else "Using specified seed value: " ++ Nat.repr seed2
    let sp := simple_prompt prompt width height
    let cfg := buildGenConfig temperature seed2
    let bc := buildContents1 env sp image
    let logs := kr.2.2 ++ [seedLog, "Using temperature and seed value"] ++ bc.2.2 ++
      ["Requesting Gemini API to generate image"]
    match env.api (buildApiCall bc.1 cfg) with
    | ApiOutcome.raised msg =>
      let logs2 := logs ++ ["Gemini image generation error: " ++ msg]
      (generate_empty_image width height,
        "## Processing Log\n" ++ joinLogs logs2 ++ "\n\n## Error\nError during processing: " ++ msg)
    | ApiOutcome.ok cands =>
      let logs2 := logs ++ ["API response received successfully, processing..."]
      match cands with
      | [] =>
        (generate_empty_image width height,
          joinLogs (logs2 ++ ["No candidates in API response"]) ++
            "\n\nAPI returned empty response")
      | c :: _ => respond1 env width height logs2 c.parts

/-- Embeds `GeminiMultiImageGenerator.generate_image_multi` (lines 496-674).
Differs from the single node in the contents assembly, the scan loop
(`image_found` flag) and the post-loop text selection. -/
def generate_image_multi (env : Env) (fs : Option String)
    (prompt : List Char) (api_key model : String)
    (width height : Nat) (temperature : ℚ) (seed : Nat)
    (image1 image2 image3 image4 : Option Tensor) : Tensor × String :=
  let kr := get_api_key env.key fs api_key
  if kr.1 = "" then
    (generate_empty_image width height, noKeyText)
  else
    let seed2 := resolveSeed env.rand seed
    let seedLog := if seed = 0 then "Generated random seed value: " ++ Nat.repr seed2
      else "Using specified seed value: " ++ Nat.repr seed2
    let sp := simple_prompt prompt width height
    let cfg := buildGenConfig temperature seed2
    let bc := buildContentsM env sp [image1, image2, image3, image4]
    let logs := kr.2.2 ++ [seedLog, "Using temperature and seed value"] ++ bc.2.2 ++
      ["Requesting Gemini API to generate image with reference images"]
    match env.api (buildApiCall bc.1 cfg) with
    | ApiOutcome.raised msg =>
      let logs2 := logs ++ ["Gemini multi-image generation error: " ++ msg]
      (generate_empty_image width height,
        "## Processing Log\n" ++ joinLogs logs2 ++ "\n\n## Error\nError during processing: " ++ msg)
    | ApiOutcome.ok cands =>
      let logs2 := logs ++ ["API response received successfully, processing..."]
      match cands with
      | [] =>
        (generate_empty_image width height,
          joinLogs (logs2 ++ ["No candidates in API response"]) ++
            "\n\nAPI returned empty response")
      | c :: _ => respondM env width height logs2 c.parts

/-- A uniform bitmap used by concrete oracle instantiations. -/
def flatBitmap (w h : Nat) : Bitmap := ⟨w, h, fun _ _ _ => 0⟩

/-- A concrete benign environment: file operations succeed, Base64 and image
decoding fail, resampling returns a flat bitmap of the requested size, PNG
encoding succeeds, and the API returns zero candidates. -/
def env0 : Env :=
  ⟨⟨true, true⟩, 0, fun _ => none, fun _ => none,
    fun w h _ => flatBitmap w h, fun _ => some [137], fun _ => ApiOutcome.ok []⟩

/-- A response part carrying undecodable inline data and no text. -/
def failPart : RespPart := ⟨none, some ⟨"image/png", [0]⟩⟩

/-- Environment whose API returns one candidate holding only `failPart`
(the decode oracle of `env0` always fails). -/
def envC9 : Env :=
  { env0 with api := fun _ => ApiOutcome.ok [⟨[failPart]⟩] }

/-- A reference tensor with four channels: passes the code's shape guard
even though it is not of shape (1, H, W, 3). -/
def rgbaImg : Tensor := ⟨[1, 2, 2, 4], fun _ _ _ _ => 0⟩

/-- A reference tensor of the canonical shape (1, 2, 2, 3). -/
def rgbImg : Tensor := ⟨[1, 2, 2, 3], fun _ _ _ _ => 0⟩

/-- A response part that decodes: `envDecodeOk.decode` always succeeds. -/
def envDecodeOk : Env :=
  { env0 with decode := fun _ => some (flatBitmap 4 4) }

/-- An inline response part (no text) whose bytes the `envDecodeOk` oracle
decodes successfully. -/
def goodPart : RespPart := ⟨none, some ⟨"image/png", [1]⟩⟩

/-- A tensor whose shape fails the 4-dimensional guard. -/
def badImg : Tensor := ⟨[1, 2, 2], fun _ _ _ _ => 0⟩

/-- Environment whose API returns one candidate with an empty part list. -/
def envEmptyParts : Env :=
  { env0 with api := fun _ => ApiOutcome.ok [⟨[]⟩] }

/-- Stripping never lengthens a character list. -/
theorem pyStripL_length_le (l : List Char) : (pyStripL l).length ≤ l.length := by
  unfold pyStripL
  have h1 : (l.dropWhile isPySpace).length ≤ l.length :=
    List.Sublist.length_le (List.dropWhile_sublist _)
  have h2 : ((l.dropWhile isPySpace).reverse.dropWhile isPySpace).length ≤
      (l.dropWhile isPySpace).reverse.length :=
    List.Sublist.length_le (List.dropWhile_sublist _)
  simp only [List.length_reverse] at *
  omega

/-- Stripping never lengthens a string. -/
theorem pyStrip_length_le (s : String) : (pyStrip s).length ≤ s.length :=
  pyStripL_length_le s.data

/-- A string of length greater than 10 is not empty. -/
theorem ne_empty_of_length_gt (s : String) (h : s.length > 10) : s ≠ "" := by
  intro e
  rw [e] at h
  simp [String.length] at h

/-- With a valid user input, `get_api_key` returns it whatever the write
outcome. -/
theorem get_api_key_fst_long (e : KeyEnv) (fs : Option String) (key : String)
    (h : key.length > 10) : (get_api_key e fs key).1 = key := by
  have hg : key ≠ "" ∧ key.length > 10 := ⟨ne_empty_of_length_gt key h, h⟩
  cases hw : e.writeOk <;> simp [get_api_key, hg, hw]

/-- C2: for every width and height within the declared input bounds
(512 to 2048), `generate_empty_image` returns a tensor of shape
`(1, height, width, 3)` in which every sample equals `0.2` (i.e. `1/5`). -/
theorem c2_empty_image_spec (width height : Nat)
    (hw1 : 512 ≤ width) (hw2 : width ≤ 2048)
    (hh1 : 512 ≤ height) (hh2 : height ≤ 2048) :
    (generate_empty_image width height).shape = [1, height, width, 3] ∧
    (generate_empty_image width height).px = fun _ _ _ _ => 1/5 := by
  exact ⟨rfl, rfl⟩

/-- Witness for C2 at width = height = 1024. -/
theorem c2_empty_image_spec_witness :
    (512 ≤ 1024 ∧ 1024 ≤ 2048) ∧
    (generate_empty_image 1024 1024).shape = [1, 1024, 1024, 3] ∧
    (generate_empty_image 1024 1024).px = fun _ _ _ _ => 1/5 :=
  ⟨⟨by decide, by decide⟩,
    c2_empty_image_spec 1024 1024 (by decide) (by decide) (by decide) (by decide)⟩

/-- C3 counterexample: the key `"abcdefghijk "` (11 letters plus a trailing
space, length 12 > 10) is returned and persisted verbatim by the first call,
but the second call re-reads the file through `.strip()` and therefore
returns `"abcdefghijk"`, not the original string. -/
theorem c3_counterexample :
    ("abcdefghijk " : String).length > 10 ∧
    (get_api_key ⟨true, true⟩ none "abcdefghijk ").1 = "abcdefghijk " ∧
    (get_api_key ⟨true, true⟩ none "abcdefghijk ").2.1 = some "abcdefghijk " ∧
    (get_api_key ⟨true, true⟩ (some "abcdefghijk ") "").1 = "abcdefghijk" ∧
    ("abcdefghijk" : String) ≠ "abcdefghijk " := by
  refine ⟨by decide, ?_, ?_, ?_, by decide⟩ <;> decide

/-- C3 (amended): for every credential string of length greater than 10 whose
`strip()` is itself (no leading/trailing whitespace), and with the file write
and read succeeding, `get_api_key` returns that exact string, persists it, and
a subsequent call with an input of length at most 10 returns it again.
(In general the subsequent call returns the stripped persisted string.) -/
theorem c3_get_api_key_roundtrip (env : KeyEnv) (fs : Option String)
    (key key2 : String)
    (hw : env.writeOk = true) (hr : env.readOk = true)
    (hlen : key.length > 10) (hstrip : pyStrip key = key)
    (hlen2 : key2.length ≤ 10) :
    (get_api_key env fs key).1 = key ∧
    (get_api_key env fs key).2.1 = some key ∧
    (get_api_key env (get_api_key env fs key).2.1 key2).1 = key := by
  have hne : key ≠ "" := ne_empty_of_length_gt key hlen
  have hg : key ≠ "" ∧ key.length > 10 := ⟨hne, hlen⟩
  have hg2 : ¬(key2 ≠ "" ∧ key2.length > 10) := by
    rintro ⟨-, h⟩; omega
  have hfirst : get_api_key env fs key =
      (key, some key, ["Using user input API key", "API key saved to node directory"]) := by
    simp [get_api_key, hg, hw]
  refine ⟨by rw [hfirst], by rw [hfirst], ?_⟩
  rw [hfirst]
  simp [get_api_key, hg2, hr, hstrip, hg]

/-- Witness for C3 (amended) with the 12-character whitespace-free key
`"sk1234567890"`. -/
theorem c3_get_api_key_roundtrip_witness :
    (get_api_key ⟨true, true⟩ none "sk1234567890").1 = "sk1234567890" ∧
    (get_api_key ⟨true, true⟩ none "sk1234567890").2.1 = some "sk1234567890" ∧
    (get_api_key ⟨true, true⟩
      (get_api_key ⟨true, true⟩ none "sk1234567890").2.1 "").1 = "sk1234567890" :=
  c3_get_api_key_roundtrip ⟨true, true⟩ none "sk1234567890" "" rfl rfl
    (by decide) (by decide) (by decide)

/-- C4: for every user input of length at most 10, when the key file is absent
or its contents have length at most 10, `get_api_key` returns the empty
string (and, being a total function of the oracle outcomes, raises nothing:
both file operations' failures are themselves oracle values). -/
theorem c4_get_api_key_no_key (env : KeyEnv) (fs : Option String) (key : String)
    (hlen : key.length ≤ 10)
    (hfs : fs = none ∨ ∃ c, fs = some c ∧ c.length ≤ 10) :
    (get_api_key env fs key).1 = "" := by
  have hg : ¬(key ≠ "" ∧ key.length > 10) := by
    rintro ⟨-, h⟩; omega
  rcases hfs with rfl | ⟨c, rfl, hc⟩
  · simp [get_api_key, hg]
  · have hs : ¬(pyStrip c ≠ "" ∧ (pyStrip c).length > 10) := by
      rintro ⟨-, h⟩
      have := pyStrip_length_le c
      omega
    cases hrd : env.readOk
    · simp [get_api_key, hg, hrd]
    · simp [get_api_key, hg, hrd, hs]

/-- Witness for C4: a 5-character input with no key file yields `""`. -/
theorem c4_get_api_key_no_key_witness :
    ("short" : String).length ≤ 10 ∧
    (get_api_key ⟨true, true⟩ none "short").1 = "" :=
  ⟨by decide, c4_get_api_key_no_key ⟨true, true⟩ none "short" (by decide) (Or.inl rfl)⟩

/-- C5: a seed input of exactly 0 is replaced by a value in `[1, 2^31 - 1]`
(and every such value is reachable, matching a uniform draw over that
interval); every nonzero seed passes through unchanged into the
configuration. -/
theorem c5_seed_spec (r seed : Nat) :
    (seed = 0 → 1 ≤ resolveSeed r seed ∧ resolveSeed r seed ≤ 2^31 - 1) ∧
    (seed ≠ 0 → resolveSeed r seed = seed) ∧
    (∀ v, 1 ≤ v → v ≤ 2^31 - 1 → ∃ r2, resolveSeed r2 0 = v) ∧
    (buildGenConfig 1 (resolveSeed r seed)).seed = resolveSeed r seed := by
  refine ⟨?_, ?_, ?_, rfl⟩
  · intro h
    subst h
    have hm : r % (2^31 - 1) < 2^31 - 1 := Nat.mod_lt r (by norm_num)
    unfold resolveSeed
    norm_num
    omega
  · intro h
    simp [resolveSeed, h]
  · intro v h1 h2
    refine ⟨v - 1, ?_⟩
    have hmod : (v - 1) % (2^31 - 1) = v - 1 := Nat.mod_eq_of_lt (by omega)
    simp [resolveSeed, hmod]
    omega

/-- Witness for C5: seed 0 lands in range, seed 42 is unchanged. -/
theorem c5_seed_spec_witness :
    (1 ≤ resolveSeed 5 0 ∧ resolveSeed 5 0 ≤ 2^31 - 1) ∧ resolveSeed 5 42 = 42 :=
  ⟨(c5_seed_spec 5 0).1 rfl, (c5_seed_spec 5 42).2.1 (by decide)⟩

/-- Any middle factor of an append chain is a substring. -/
theorem hasSubstr_of_eq_append (big a s b : List Char) (h : big = a ++ (s ++ b)) :
    hasSubstr big s = true := by
  subst h
  unfold hasSubstr
  rw [List.any_eq_true]
  refine ⟨a.length, List.mem_range.2 ?_, ?_⟩
  · simp only [List.length_append]
    omega
  · rw [List.drop_left, List.take_left]
    simp

/-- C6: the request text contains the orientation label derived from the
width/height comparison and the literal pixel-dimension string
`{width}x{height}`; in particular width 1024, height 768 gives a prompt
containing both `"1024x768"` and `"landscape"`. -/
theorem c6_prompt_spec (prompt : List Char) (width height : Nat) :
    hasSubstr (simple_prompt prompt width height) (orientation width height) = true ∧
    hasSubstr (simple_prompt prompt width height)
      (natChars width ++ "x".data ++ natChars height) = true ∧
    (height < width → orientation width height = "landscape (horizontal)".data) ∧
    (width < height → orientation width height = "portrait (vertical)".data) ∧
    (width = height → orientation width height = "square".data) ∧
    hasSubstr (simple_prompt prompt 1024 768) "1024x768".data = true ∧
    hasSubstr (simple_prompt prompt 1024 768) "landscape".data = true := by
  refine ⟨?_, ?_, ?_, ?_, ?_, ?_, ?_⟩
  · exact hasSubstr_of_eq_append _
      ("Create a detailed image of: ".data ++ prompt ++ ". Generate the image in ".data)
      (orientation width height)
      (" orientation with exact dimensions of ".data ++ natChars width ++
        "x".data ++ natChars height ++
        " pixels. Ensure the composition fits properly within these dimensions without stretching or distortion.".data)
      (by simp [simple_prompt, promptTail, List.append_assoc])
  · exact hasSubstr_of_eq_append _
      ("Create a detailed image of: ".data ++ prompt ++ ". Generate the image in ".data ++
        orientation width height ++ " orientation with exact dimensions of ".data)
      (natChars width ++ "x".data ++ natChars height)
      (" pixels. Ensure the composition fits properly within these dimensions without stretching or distortion.".data)
      (by simp [simple_prompt, promptTail, List.append_assoc])
  · intro h
    simp [orientation, h]
  · intro h
    have h2 : ¬ height < width := by omega
    simp [orientation, h, h2]
  · intro h
    simp [orientation, h]
  · refine hasSubstr_of_eq_append _
      ("Create a detailed image of: ".data ++ prompt ++ ". Generate the image in ".data ++
        orientation 1024 768 ++ " orientation with exact dimensions of ".data)
      "1024x768".data
      (" pixels. Ensure the composition fits properly within these dimensions without stretching or distortion.".data)
      ?_
    have e : ∀ r : List Char,
        natChars 1024 ++ ("x".data ++ (natChars 768 ++ r)) = "1024x768".data ++ r := by
      intro r
      rw [← List.append_assoc, ← List.append_assoc]
      congr 1
    simp only [simple_prompt, promptTail, List.append_assoc]
    rw [e]
  · refine hasSubstr_of_eq_append _
      ("Create a detailed image of: ".data ++ prompt ++ ". Generate the image in ".data)
      "landscape".data
      (" (horizontal) orientation with exact dimensions of ".data ++ natChars 1024 ++
        "x".data ++ natChars 768 ++
        " pixels. Ensure the composition fits properly within these dimensions without stretching or distortion.".data)
      ?_
    have e : ∀ r : List Char,
        orientation 1024 768 ++ (" orientation with exact dimensions of ".data ++ r) =
        "landscape".data ++ (" (horizontal) orientation with exact dimensions of ".data ++ r) := by
      intro r
      rw [← List.append_assoc, ← List.append_assoc]
      congr 1
    simp only [simple_prompt, promptTail, List.append_assoc]
    rw [e]

/-- Witness for C6: the scenario of the spec (prompt "a red ball",
width 1024, height 768). -/
theorem c6_prompt_spec_witness :
    hasSubstr (simple_prompt "a red ball".data 1024 768) "1024x768".data = true ∧
    hasSubstr (simple_prompt "a red ball".data 1024 768) "landscape".data = true ∧
    orientation 1024 768 = "landscape (horizontal)".data :=
  ⟨(c6_prompt_spec "a red ball".data 1024 768).2.2.2.2.2.1,
   (c6_prompt_spec "a red ball".data 1024 768).2.2.2.2.2.2,
   (c6_prompt_spec "a red ball".data 1024 768).2.2.1 (by decide)⟩

/-- Pixel samples of a converted tensor lie in [0, 1]. -/
theorem toTensor_px_bounds (bmp : Bitmap) (b y x c : Nat) :
    0 ≤ (toTensor bmp).px b y x c ∧ (toTensor bmp).px b y x c ≤ 1 := by
  unfold toTensor
  constructor
  · positivity
  · have h : ((bmp.px y x c : Fin 256) : ℚ) ≤ 255 := by
      have h2 := (bmp.px y x c).isLt
      have h3 : (bmp.px y x c).val ≤ 255 := Nat.le_of_lt_succ h2
      exact_mod_cast h3
    rw [div_le_one (by norm_num)]
    exact h

/-- `step1` on a text part. -/
theorem step1_eq_text (env : Env) (w h : Nat) (p : RespPart) (s : String)
    (rt : String) (logs : List String) (ht : p.text = some s) :
    step1 env w h p rt logs = Sum.inr (rt ++ s, logs ++ [textLog s]) := by
  obtain ⟨pt, pi⟩ := p
  cases ht
  rfl

/-- `step1` on a part with neither text nor inline data. -/
theorem step1_eq_skip (env : Env) (w h : Nat) (p : RespPart)
    (rt : String) (logs : List String) (ht : p.text = none) (hi : p.inline = none) :
    step1 env w h p rt logs = Sum.inr (rt, logs) := by
  obtain ⟨pt, pi⟩ := p
  cases ht
  cases hi
  rfl

/-- `step1` on an inline part whose decode fails. -/
theorem step1_eq_fail (env : Env) (w h : Nat) (p : RespPart) (d : InlineData)
    (rt : String) (logs : List String) (ht : p.text = none) (hi : p.inline = some d)
    (hd : env.decode (effData env d.data) = none) :
    step1 env w h p rt logs = Sum.inr (rt,
      (logs ++ ["Processing API returned data", dataInfoLog d] ++ sniffLogs env d.data) ++
      ["Failed to open image with BytesIO",
       "Unable to process image data, using default empty image", emptyImageLog]) := by
  obtain ⟨pt, pi⟩ := p
  cases ht
  cases hi
  simp only [step1, hd]

/-- `step1` on an inline part whose decode succeeds: the early return. -/
theorem step1_eq_decode (env : Env) (w h : Nat) (p : RespPart) (d : InlineData)
    (bmp : Bitmap) (rt : String) (logs : List String)
    (ht : p.text = none) (hi : p.inline = some d)
    (hd : env.decode (effData env d.data) = some bmp) :
    step1 env w h p rt logs = Sum.inl
      (toTensor (if bmp.w ≠ w ∨ bmp.h ≠ h then env.resize w h bmp else bmp),
       "## Processing Log\n" ++ joinLogs
         ((logs ++ ["Processing API returned data", dataInfoLog d] ++ sniffLogs env d.data) ++
          [openedLog bmp, convertedLog]) ++ "\n\n## API Response\n" ++ rt) := by
  obtain ⟨pt, pi⟩ := p
  cases ht
  cases hi
  simp only [step1, hd]

/-- `stepM` on a text part. -/
theorem stepM_eq_text (env : Env) (w h : Nat) (p : RespPart) (s : String)
    (rt : String) (logs : List String) (ht : p.text = some s) :
    stepM env w h p rt logs = Sum.inr (rt ++ s, logs ++ [textLog s]) := by
  obtain ⟨pt, pi⟩ := p
  cases ht
  rfl

/-- `stepM` on a part with neither text nor inline data. -/
theorem stepM_eq_skip (env : Env) (w h : Nat) (p : RespPart)
    (rt : String) (logs : List String) (ht : p.text = none) (hi : p.inline = none) :
    stepM env w h p rt logs = Sum.inr (rt, logs) := by
  obtain ⟨pt, pi⟩ := p
  cases ht
  cases hi
  rfl

/-- `stepM` on an inline part whose decode fails. -/
theorem stepM_eq_fail (env : Env) (w h : Nat) (p : RespPart) (d : InlineData)
    (rt : String) (logs : List String) (ht : p.text = none) (hi : p.inline = some d)
    (hd : env.decode (effData env d.data) = none) :
    stepM env w h p rt logs = Sum.inr (rt,
      (logs ++ ["Processing API returned data", dataInfoLog d] ++ sniffLogs env d.data) ++
      ["Failed to open image with BytesIO",
       "Unable to process image data, using default empty image"]) := by
  obtain ⟨pt, pi⟩ := p
  cases ht
  cases hi
  simp only [stepM, hd]

/-- `stepM` on an inline part whose decode succeeds. -/
theorem stepM_eq_decode (env : Env) (w h : Nat) (p : RespPart) (d : InlineData)
    (bmp : Bitmap) (rt : String) (logs : List String)
    (ht : p.text = none) (hi : p.inline = some d)
    (hd : env.decode (effData env d.data) = some bmp) :
    stepM env w h p rt logs = Sum.inl
      (toTensor (if bmp.w ≠ w ∨ bmp.h ≠ h then env.resize w h bmp else bmp),
       "## Processing Log\n" ++ joinLogs
         ((logs ++ ["Processing API returned data", dataInfoLog d] ++ sniffLogs env d.data) ++
          [openedLog bmp, convertedLog]) ++ "\n\n## API Response\n" ++ rt) := by
  obtain ⟨pt, pi⟩ := p
  cases ht
  cases hi
  simp only [stepM, hd]

/-- A non-stopping inline part has a failing decode. -/
theorem stopsB_decode_none (env : Env) (p : RespPart) (d : InlineData)
    (hs : stopsB env p = false) (ht : p.text = none) (hi : p.inline = some d) :
    env.decode (effData env d.data) = none := by
  obtain ⟨pt, pi⟩ := p
  cases ht
  cases hi
  simp only [stopsB, Option.isNone_none, Bool.true_and] at hs
  cases hd : env.decode (effData env d.data) with
  | none => rfl
  | some bmp => rw [hd] at hs; simp at hs

/-- A stopping part is an inline part with a succeeding decode. -/
theorem stopsB_char (env : Env) (p : RespPart) (hs : stopsB env p = true) :
    ∃ d bmp, p.text = none ∧ p.inline = some d ∧
      env.decode (effData env d.data) = some bmp := by
  obtain ⟨pt, pi⟩ := p
  cases pt with
  | some s => simp [stopsB] at hs
  | none =>
    cases pi with
    | none => simp [stopsB] at hs
    | some d =>
      simp only [stopsB, Option.isNone_none, Bool.true_and] at hs
      cases hd : env.decode (effData env d.data) with
      | none => rw [hd] at hs; simp at hs
      | some bmp => exact ⟨d, bmp, rfl, rfl, hd⟩

/-- Unfolding `scan1` one step when the part does not return. -/
theorem scan1_cons_inr (env : Env) (w h : Nat) (p : RespPart) (l : List RespPart)
    (rt rt2 : String) (logs logs2 : List String)
    (hstep : step1 env w h p rt logs = Sum.inr (rt2, logs2)) :
    scan1 env w h (p :: l) rt logs = scan1 env w h l rt2 logs2 := by
  simp only [scan1, hstep]

/-- Unfolding `scan1` one step when the part returns. -/
theorem scan1_cons_inl (env : Env) (w h : Nat) (p : RespPart) (l : List RespPart)
    (rt : String) (logs : List String) (res : Tensor × String)
    (hstep : step1 env w h p rt logs = Sum.inl res) :
    scan1 env w h (p :: l) rt logs = Sum.inl res := by
  simp only [scan1, hstep]

/-- Unfolding `scanM` one step when the part does not return. -/
theorem scanM_cons_inr (env : Env) (w h : Nat) (p : RespPart) (l : List RespPart)
    (rt rt2 : String) (logs logs2 : List String) (found : Bool)
    (hstep : stepM env w h p rt logs = Sum.inr (rt2, logs2)) :
    scanM env w h (p :: l) rt logs found =
      scanM env w h l rt2 logs2 (found || (p.text.isNone && p.inline.isSome)) := by
  simp only [scanM, hstep]

/-- Unfolding `scanM` one step when the part returns. -/
theorem scanM_cons_inl (env : Env) (w h : Nat) (p : RespPart) (l : List RespPart)
    (rt : String) (logs : List String) (found : Bool) (res : Tensor × String)
    (hstep : stepM env w h p rt logs = Sum.inl res) :
    scanM env w h (p :: l) rt logs found = Sum.inl res := by
  simp only [scanM, hstep]

/-- A non-stopping part never triggers the early return (single node). -/
theorem step1_inr_of_not_stop (env : Env) (w h : Nat) (p : RespPart)
    (rt : String) (logs : List String) (hs : stopsB env p = false) :
    ∃ rt2 logs2, step1 env w h p rt logs = Sum.inr (rt2, logs2) := by
  rcases hpt : p.text with _ | s
  · rcases hpi : p.inline with _ | d
    · exact ⟨rt, logs, step1_eq_skip env w h p rt logs hpt hpi⟩
    · have hd := stopsB_decode_none env p d hs hpt hpi
      exact ⟨rt, _, step1_eq_fail env w h p d rt logs hpt hpi hd⟩
  · exact ⟨rt ++ s, _, step1_eq_text env w h p s rt logs hpt⟩

/-- A non-stopping part never triggers the early return (multi node). -/
theorem stepM_inr_of_not_stop (env : Env) (w h : Nat) (p : RespPart)
    (rt : String) (logs : List String) (hs : stopsB env p = false) :
    ∃ rt2 logs2, stepM env w h p rt logs = Sum.inr (rt2, logs2) := by
  rcases hpt : p.text with _ | s
  · rcases hpi : p.inline with _ | d
    · exact ⟨rt, logs, stepM_eq_skip env w h p rt logs hpt hpi⟩
    · have hd := stopsB_decode_none env p d hs hpt hpi
      exact ⟨rt, _, stepM_eq_fail env w h p d rt logs hpt hpi hd⟩
  · exact ⟨rt ++ s, _, stepM_eq_text env w h p s rt logs hpt⟩

/-- A non-stopping part with no text leaves the accumulated response text
unchanged (single node). -/
theorem step1_inr_rt_of_none_text (env : Env) (w h : Nat) (p : RespPart)
    (rt : String) (logs : List String) (hs : stopsB env p = false)
    (ht : p.text = none) :
    ∃ logs2, step1 env w h p rt logs = Sum.inr (rt, logs2) := by
  rcases hpi : p.inline with _ | d
  · exact ⟨logs, step1_eq_skip env w h p rt logs ht hpi⟩
  · have hd := stopsB_decode_none env p d hs ht hpi
    exact ⟨_, step1_eq_fail env w h p d rt logs ht hpi hd⟩

/-- Skipping a run of non-stopping parts only advances the accumulators;
the continuation is the scan of the remaining parts, whatever they are. -/
theorem scan1_skip (env : Env) (w h : Nat) :
    ∀ (pre : List RespPart), (∀ p ∈ pre, stopsB env p = false) →
    ∀ rt logs, ∃ rt2 logs2, ∀ rest,
      scan1 env w h (pre ++ rest) rt logs = scan1 env w h rest rt2 logs2 := by
  intro pre
  induction pre with
  | nil => exact fun _ rt logs => ⟨rt, logs, fun _ => rfl⟩
  | cons p pre ih =>
    intro hpre rt logs
    have hp : stopsB env p = false := hpre p (List.mem_cons_self p pre)
    have hpre2 : ∀ q ∈ pre, stopsB env q = false :=
      fun q hq => hpre q (List.mem_cons_of_mem p hq)
    obtain ⟨rt1, logs1, hstep⟩ := step1_inr_of_not_stop env w h p rt logs hp
    obtain ⟨rt2, logs2, hrec⟩ := ih hpre2 rt1 logs1
    refine ⟨rt2, logs2, fun rest => ?_⟩
    rw [List.cons_append, scan1_cons_inr env w h p _ rt rt1 logs logs1 hstep, hrec rest]

/-- Multi-node version of `scan1_skip`. -/
theorem scanM_skip (env : Env) (w h : Nat) :
    ∀ (pre : List RespPart), (∀ p ∈ pre, stopsB env p = false) →
    ∀ rt logs found, ∃ rt2 logs2 found2, ∀ rest,
      scanM env w h (pre ++ rest) rt logs found =
        scanM env w h rest rt2 logs2 found2 := by
  intro pre
  induction pre with
  | nil => exact fun _ rt logs found => ⟨rt, logs, found, fun _ => rfl⟩
  | cons p pre ih =>
    intro hpre rt logs found
    have hp : stopsB env p = false := hpre p (List.mem_cons_self p pre)
    have hpre2 : ∀ q ∈ pre, stopsB env q = false :=
      fun q hq => hpre q (List.mem_cons_of_mem p hq)
    obtain ⟨rt1, logs1, hstep⟩ := stepM_inr_of_not_stop env w h p rt logs hp
    obtain ⟨rt2, logs2, found2, hrec⟩ :=
      ih hpre2 rt1 logs1 (found || (p.text.isNone && p.inline.isSome))
    refine ⟨rt2, logs2, found2, fun rest => ?_⟩
    rw [List.cons_append, scanM_cons_inr env w h p _ rt rt1 logs logs1 found hstep,
      hrec rest]

/-- With only non-stopping, text-free parts, the single-node scan falls
through with the response text unchanged. -/
theorem scan1_rt_fixed (env : Env) (w h : Nat) :
    ∀ (parts : List RespPart), (∀ p ∈ parts, stopsB env p = false) →
    (∀ p ∈ parts, p.text = none) →
    ∀ rt logs, ∃ logs2, scan1 env w h parts rt logs = Sum.inr (rt, logs2) := by
  intro parts
  induction parts with
  | nil => exact fun _ _ rt logs => ⟨logs, rfl⟩
  | cons p parts ih =>
    intro h1 h2 rt logs
    have hp : stopsB env p = false := h1 p (List.mem_cons_self p parts)
    have hpt : p.text = none := h2 p (List.mem_cons_self p parts)
    obtain ⟨logs1, hstep⟩ := step1_inr_rt_of_none_text env w h p rt logs hp hpt
    obtain ⟨logs2, hrec⟩ := ih (fun q hq => h1 q (List.mem_cons_of_mem p hq))
      (fun q hq => h2 q (List.mem_cons_of_mem p hq)) rt logs1
    exact ⟨logs2, by rw [scan1_cons_inr env w h p _ rt rt logs logs1 hstep, hrec]⟩

/-- With only absent-text, absent-inline parts, the multi-node scan falls
through with both the response text and the found flag unchanged. -/
theorem scanM_rt_found_fixed (env : Env) (w h : Nat) :
    ∀ (parts : List RespPart), (∀ p ∈ parts, p.text = none) →
    (∀ p ∈ parts, p.inline = none) →
    ∀ rt logs found, ∃ logs2,
      scanM env w h parts rt logs found = Sum.inr (rt, logs2, found) := by
  intro parts
  induction parts with
  | nil => exact fun _ _ rt logs found => ⟨logs, rfl⟩
  | cons p parts ih =>
    intro h2 h3 rt logs found
    have hpt : p.text = none := h2 p (List.mem_cons_self p parts)
    have hpi : p.inline = none := h3 p (List.mem_cons_self p parts)
    have hstep := stepM_eq_skip env w h p rt logs hpt hpi
    obtain ⟨logs2, hrec⟩ := ih (fun q hq => h2 q (List.mem_cons_of_mem p hq))
      (fun q hq => h3 q (List.mem_cons_of_mem p hq)) rt logs found
    refine ⟨logs2, ?_⟩
    rw [scanM_cons_inr env w h p _ rt rt logs logs found hstep, hpt, hpi]
    simpa using hrec

/-- Any early return of `step1` comes from a decoded inline part, and its
tensor is the converted (and, if needed, resized) bitmap. -/
theorem step1_inl_char (env : Env) (w h : Nat) (p : RespPart)
    (rt : String) (logs : List String) (t : Tensor) (s : String)
    (hstep : step1 env w h p rt logs = Sum.inl (t, s)) :
    ∃ d bmp, p.text = none ∧ p.inline = some d ∧
      env.decode (effData env d.data) = some bmp ∧
      t = toTensor (if bmp.w ≠ w ∨ bmp.h ≠ h then env.resize w h bmp else bmp) := by
  rcases hpt : p.text with _ | s2
  · rcases hpi : p.inline with _ | d
    · rw [step1_eq_skip env w h p rt logs hpt hpi] at hstep
      simp at hstep
    · cases hd : env.decode (effData env d.data) with
      | none =>
        rw [step1_eq_fail env w h p d rt logs hpt hpi hd] at hstep
        simp at hstep
      | some bmp =>
        rw [step1_eq_decode env w h p d bmp rt logs hpt hpi hd] at hstep
        simp only [Sum.inl.injEq, Prod.mk.injEq] at hstep
        exact ⟨d, bmp, rfl, rfl, hd, hstep.1.symm⟩
  · rw [step1_eq_text env w h p s2 rt logs hpt] at hstep
    simp at hstep

/-- Multi-node version of `step1_inl_char`. -/
theorem stepM_inl_char (env : Env) (w h : Nat) (p : RespPart)
    (rt : String) (logs : List String) (t : Tensor) (s : String)
    (hstep : stepM env w h p rt logs = Sum.inl (t, s)) :
    ∃ d bmp, p.text = none ∧ p.inline = some d ∧
      env.decode (effData env d.data) = some bmp ∧
      t = toTensor (if bmp.w ≠ w ∨ bmp.h ≠ h then env.resize w h bmp else bmp) := by
  rcases hpt : p.text with _ | s2
  · rcases hpi : p.inline with _ | d
    · rw [stepM_eq_skip env w h p rt logs hpt hpi] at hstep
      simp at hstep
    · cases hd : env.decode (effData env d.data) with
      | none =>
        rw [stepM_eq_fail env w h p d rt logs hpt hpi hd] at hstep
        simp at hstep
      | some bmp =>
        rw [stepM_eq_decode env w h p d bmp rt logs hpt hpi hd] at hstep
        simp only [Sum.inl.injEq, Prod.mk.injEq] at hstep
        exact ⟨d, bmp, rfl, rfl, hd, hstep.1.symm⟩
  · rw [stepM_eq_text env w h p s2 rt logs hpt] at hstep
    simp at hstep

/-- Any early return of the single-node scan carries a converted bitmap. -/
theorem scan1_inl_tensor (env : Env) (w h : Nat) :
    ∀ (parts : List RespPart) (rt : String) (logs : List String) (t : Tensor) (s : String),
      scan1 env w h parts rt logs = Sum.inl (t, s) →
      ∃ bmp, t = toTensor (if bmp.w ≠ w ∨ bmp.h ≠ h then env.resize w h bmp else bmp) := by
  intro parts
  induction parts with
  | nil => intro rt logs t s hscan; simp [scan1] at hscan
  | cons p rest ih =>
    intro rt logs t s hscan
    cases hstep : step1 env w h p rt logs with
    | inl res =>
      rw [scan1_cons_inl env w h p rest rt logs res hstep] at hscan
      simp only [Sum.inl.injEq] at hscan
      rw [hscan] at hstep
      obtain ⟨d, bmp, _, _, _, hteq⟩ := step1_inl_char env w h p rt logs t s hstep
      exact ⟨bmp, hteq⟩
    | inr rl =>
      obtain ⟨rt2, logs2⟩ := rl
      rw [scan1_cons_inr env w h p rest rt rt2 logs logs2 hstep] at hscan
      exact ih rt2 logs2 t s hscan

/-- Any early return of the multi-node scan carries a converted bitmap. -/
theorem scanM_inl_tensor (env : Env) (w h : Nat) :
    ∀ (parts : List RespPart) (rt : String) (logs : List String) (found : Bool)
      (t : Tensor) (s : String),
      scanM env w h parts rt logs found = Sum.inl (t, s) →
      ∃ bmp, t = toTensor (if bmp.w ≠ w ∨ bmp.h ≠ h then env.resize w h bmp else bmp) := by
  intro parts
  induction parts with
  | nil => intro rt logs found t s hscan; simp [scanM] at hscan
  | cons p rest ih =>
    intro rt logs found t s hscan
    cases hstep : stepM env w h p rt logs with
    | inl res =>
      rw [scanM_cons_inl env w h p rest rt logs found res hstep] at hscan
      simp only [Sum.inl.injEq] at hscan
      rw [hscan] at hstep
      obtain ⟨d, bmp, _, _, _, hteq⟩ := stepM_inl_char env w h p rt logs t s hstep
      exact ⟨bmp, hteq⟩
    | inr rl =>
      obtain ⟨rt2, logs2⟩ := rl
      rw [scanM_cons_inr env w h p rest rt rt2 logs logs2 found hstep] at hscan
      exact ih rt2 logs2 _ t s hscan

/-- The converted (and possibly resized) bitmap always yields the requested
tensor shape under a faithful resampling oracle. -/
theorem tensor_shape_of_if (env : Env) (w h : Nat) (bmp : Bitmap)
    (hwf : resizeWF env) :
    (toTensor (if bmp.w ≠ w ∨ bmp.h ≠ h then env.resize w h bmp else bmp)).shape
      = [1, h, w, 3] := by
  by_cases hc : bmp.w ≠ w ∨ bmp.h ≠ h
  · obtain ⟨hw2, hh2⟩ := hwf w h bmp
    rw [if_pos hc]
    simp [toTensor, hw2, hh2]
  · push_neg at hc
    rw [if_neg (by push_neg; exact hc)]
    simp [toTensor, hc.1, hc.2]

/-- String append acts as list append on the character data. -/
theorem str_data_append (s t : String) : (s ++ t).data = s.data ++ t.data := rfl

/-- When no part stops the scan and no part carries text, the single node
falls back to the placeholder and the fixed no-image-or-text message. -/
theorem respond1_no_image (env : Env) (w h : Nat) (parts : List RespPart)
    (logs2 : List String)
    (hns : ∀ p ∈ parts, stopsB env p = false)
    (hnt : ∀ p ∈ parts, p.text = none) :
    (respond1 env w h logs2 parts).1 = generate_empty_image w h ∧
    hasSubstrS (respond1 env w h logs2 parts).2
      "API did not return any image or text" = true := by
  obtain ⟨logsF, hscan⟩ := scan1_rt_fixed env w h parts hns hnt "" logs2
  refine ⟨by simp only [respond1, hscan], ?_⟩
  simp only [respond1, hscan, if_pos rfl]
  unfold hasSubstrS
  refine hasSubstr_of_eq_append _
    (("## Processing Log\n" ++
      joinLogs (logsF ++ ["No image data found in API response, returning text only"]) ++
      "\n\n## API Response\n").data)
    ("API did not return any image or text".data) [] ?_
  simp [str_data_append]

/-- Under a faithful resampling oracle, the single node's response
interpretation always yields a tensor of the requested shape. -/
theorem respond1_shape (env : Env) (w h : Nat) (parts : List RespPart)
    (logs2 : List String) (hwf : resizeWF env) :
    (respond1 env w h logs2 parts).1.shape = [1, h, w, 3] := by
  unfold respond1
  cases hscan : scan1 env w h parts "" logs2 with
  | inl res =>
    obtain ⟨t, s⟩ := res
    obtain ⟨bmp, ht⟩ := scan1_inl_tensor env w h parts "" logs2 t s hscan
    simpa [ht] using tensor_shape_of_if env w h bmp hwf
  | inr rl =>
    obtain ⟨rt, logsF⟩ := rl
    rfl

/-- Under a faithful resampling oracle, the multi node's response
interpretation always yields a tensor of the requested shape. -/
theorem respondM_shape (env : Env) (w h : Nat) (parts : List RespPart)
    (logs2 : List String) (hwf : resizeWF env) :
    (respondM env w h logs2 parts).1.shape = [1, h, w, 3] := by
  unfold respondM
  cases hscan : scanM env w h parts "" logs2 false with
  | inl res =>
    obtain ⟨t, s⟩ := res
    obtain ⟨bmp, ht⟩ := scanM_inl_tensor env w h parts "" logs2 false t s hscan
    simpa [ht] using tensor_shape_of_if env w h bmp hwf
  | inr rl =>
    obtain ⟨rt, logsF, found⟩ := rl
    rfl

/-- When no part stops the scan, the multi node returns the placeholder. -/
theorem respondM_fst_empty (env : Env) (w h : Nat) (parts : List RespPart)
    (logs2 : List String) (hns : ∀ p ∈ parts, stopsB env p = false) :
    (respondM env w h logs2 parts).1 = generate_empty_image w h := by
  obtain ⟨rt2, logsF, found2, hrec⟩ := scanM_skip env w h parts hns "" logs2 false
  have hs := hrec []
  simp only [List.append_nil, scanM] at hs
  simp only [respondM, hs]

/-- With neither text nor inline data in any part, the multi node also emits
the fixed no-image-or-text message (the found flag stays false). -/
theorem respondM_no_image (env : Env) (w h : Nat) (parts : List RespPart)
    (logs2 : List String)
    (hnt : ∀ p ∈ parts, p.text = none)
    (hni : ∀ p ∈ parts, p.inline = none) :
    hasSubstrS (respondM env w h logs2 parts).2
      "API did not return any image or text" = true := by
  obtain ⟨logsF, hscan⟩ := scanM_rt_found_fixed env w h parts hnt hni "" logs2 false
  simp only [respondM, hscan, if_pos rfl, Bool.false_eq_true, if_false]
  unfold hasSubstrS
  refine hasSubstr_of_eq_append _
    (("## Processing Log\n" ++
      joinLogs (logsF ++ ["No image data found in API response, returning text only"]) ++
      "\n\n## API Response\n").data)
    ("API did not return any image or text".data) [] ?_
  simp [str_data_append]

/-- C1: every invocation of either entry operation, for any inputs and any
oracle outcome (missing key, API exception, empty candidates, undecodable
parts, or success), returns exactly one (tensor, text) pair — the functions
are total, with every Python `except` path a value of the model — and the
tensor always has the single-batch shape `[1, height, width, 3]`. -/
theorem c1_invocation_contract (env : Env) (fs : Option String)
    (prompt : List Char) (api_key model : String) (width height : Nat)
    (temperature : ℚ) (seed : Nat)
    (image image1 image2 image3 image4 : Option Tensor)
    (hwf : resizeWF env) :
    (generate_image env fs prompt api_key model width height temperature seed
        image).1.shape = [1, height, width, 3] ∧
    (generate_image_multi env fs prompt api_key model width height temperature seed
        image1 image2 image3 image4).1.shape = [1, height, width, 3] := by
  constructor
  · simp only [generate_image]
    by_cases hk : (get_api_key env.key fs api_key).1 = ""
    · rw [if_pos hk]
      rfl
    · rw [if_neg hk]
      cases hapi2 : env.api (buildApiCall
          (buildContents1 env (simple_prompt prompt width height) image).1
          (buildGenConfig temperature (resolveSeed env.rand seed))) with
      | raised msg => rfl
      | ok cands =>
        cases cands with
        | nil => rfl
        | cons c rest => exact respond1_shape env width height _ _ hwf
  · simp only [generate_image_multi]
    by_cases hk : (get_api_key env.key fs api_key).1 = ""
    · rw [if_pos hk]
      rfl
    · rw [if_neg hk]
      cases hapi2 : env.api (buildApiCall
          (buildContentsM env (simple_prompt prompt width height)
            [image1, image2, image3, image4]).1
          (buildGenConfig temperature (resolveSeed env.rand seed))) with
      | raised msg => rfl
      | ok cands =>
        cases cands with
        | nil => rfl
        | cons c rest => exact respondM_shape env width height _ _ hwf

/-- Witness for C1 in a concrete benign environment. -/
theorem c1_invocation_contract_witness :
    (generate_image env0 none "p".data "sk1234567890" "m" 512 512 1 7 none).1.shape
      = [1, 512, 512, 3] ∧
    (generate_image_multi env0 none "p".data "sk1234567890" "m" 512 512 1 7
        none none none none).1.shape = [1, 512, 512, 3] :=
  c1_invocation_contract env0 none "p".data "sk1234567890" "m" 512 512 1 7
    none none none none none (fun _ _ _ => ⟨rfl, rfl⟩)

/-- C8: scanning the first candidate's parts, the first part whose inline
data decodes returns immediately — the result does not depend on any later
parts — in both nodes; the returned tensor has the requested shape (under a
faithful resampling oracle) with all samples in [0, 1]; and a part whose
decode fails only extends the log (strictly) and passes the accumulated text
through unchanged, in both nodes. -/
theorem c8_first_decode_spec (env : Env) (w h : Nat)
    (pre post post2 : List RespPart) (good : RespPart)
    (rt : String) (logs : List String)
    (hpre : ∀ p ∈ pre, stopsB env p = false) (hgood : stopsB env good = true) :
    (scan1 env w h (pre ++ good :: post) rt logs =
       scan1 env w h (pre ++ good :: post2) rt logs) ∧
    (scan1 env w h (pre ++ good :: post) rt logs).isLeft = true ∧
    (scanM env w h (pre ++ good :: post) rt logs false =
       scanM env w h (pre ++ good :: post2) rt logs false) ∧
    (scanM env w h (pre ++ good :: post) rt logs false).isLeft = true ∧
    (resizeWF env → ∀ t s,
      scan1 env w h (pre ++ good :: post) rt logs = Sum.inl (t, s) →
        t.shape = [1, h, w, 3] ∧
        ∀ b y x c, 0 ≤ t.px b y x c ∧ t.px b y x c ≤ 1) ∧
    (∀ (p : RespPart) (d : InlineData) (rt2 : String) (logs2 : List String),
      p.text = none → p.inline = some d →
      env.decode (effData env d.data) = none →
      (∃ logs3, step1 env w h p rt2 logs2 = Sum.inr (rt2, logs3) ∧
        logs2.length < logs3.length) ∧
      (∃ logs4, stepM env w h p rt2 logs2 = Sum.inr (rt2, logs4) ∧
        logs2.length < logs4.length)) := by
  obtain ⟨rt1, logs1, hrec1⟩ := scan1_skip env w h pre hpre rt logs
  obtain ⟨rtm, logsm, foundm, hrecM⟩ := scanM_skip env w h pre hpre rt logs false
  obtain ⟨d, bmp, hgt, hgi, hgd⟩ := stopsB_char env good hgood
  have hstep1 := step1_eq_decode env w h good d bmp rt1 logs1 hgt hgi hgd
  have hstepM := stepM_eq_decode env w h good d bmp rtm logsm hgt hgi hgd
  have h1 : ∀ rest, scan1 env w h (pre ++ good :: rest) rt logs = Sum.inl _ :=
    fun rest => by rw [hrec1 (good :: rest), scan1_cons_inl env w h good rest rt1 logs1 _ hstep1]
  have hM : ∀ rest, scanM env w h (pre ++ good :: rest) rt logs false = Sum.inl _ :=
    fun rest => by rw [hrecM (good :: rest), scanM_cons_inl env w h good rest rtm logsm foundm _ hstepM]
  refine ⟨by rw [h1 post, h1 post2], by rw [h1 post]; rfl,
    by rw [hM post, hM post2], by rw [hM post]; rfl, ?_, ?_⟩
  · intro hwf t s hscan
    obtain ⟨bmp2, ht⟩ := scan1_inl_tensor env w h _ rt logs t s hscan
    subst ht
    exact ⟨tensor_shape_of_if env w h bmp2 hwf, fun b y x c => toTensor_px_bounds _ b y x c⟩
  · intro p d2 rt2 logs2 ht hi hd
    refine ⟨⟨_, step1_eq_fail env w h p d2 rt2 logs2 ht hi hd, ?_⟩,
      ⟨_, stepM_eq_fail env w h p d2 rt2 logs2 ht hi hd, ?_⟩⟩
    · simp [List.length_append]
    · simp [List.length_append]

/-- Witness for C8: a one-part response whose inline data decodes. -/
theorem c8_first_decode_spec_witness :
    (scan1 envDecodeOk 512 512 ([] ++ goodPart :: []) "" []).isLeft = true ∧
    (scanM envDecodeOk 512 512 ([] ++ goodPart :: []) "" [] false).isLeft = true :=
  ⟨(c8_first_decode_spec envDecodeOk 512 512 [] [] [] goodPart "" []
      (by intro p hp; cases hp) rfl).2.1,
   (c8_first_decode_spec envDecodeOk 512 512 [] [] [] goodPart "" []
      (by intro p hp; cases hp) rfl).2.2.2.1⟩

/-- C7 counterexample: the four-channel tensor of shape [1, 2, 2, 4] is not
of shape (1, H, W, 3), yet the request builder keeps it — the shape guard
`len(image.shape) == 4 and image.shape[0] == 1` never checks the channel
count — and logs the success message, not a diagnostic. -/
theorem c7_counterexample :
    rgbaImg.shape = [1, 2, 2, 4] ∧
    (process_image env0 (some rgbaImg)).1.isSome = true ∧
    (process_image env0 (some rgbaImg)).2 = ["Image processed successfully"] := by
  exact ⟨rfl, rfl, rfl⟩

/-- C7 (amended): a reference image is excluded with a diagnostic (and
without raising — the builders are total) exactly when its shape fails the
guard `len(shape) == 4 and shape[0] == 1` (the channel count is not
validated) or its PNG encoding raises; every image passing the guard whose
encoding succeeds is kept, in both nodes. -/
theorem c7_image_validation (env : Env) (img : Tensor) (sp : List Char) :
    (¬(img.shape.length = 4 ∧ img.shape.headD 0 = 1) →
      (process_image env (some img)).1 = none ∧
      (process_image env (some img)).2 = ["Image format incorrect"] ∧
      (buildContents1 env sp (some img)).1 = ReqContents.str sp ∧
      (buildContents1 env sp (some img)).2.2 = ["Reference image format incorrect"]) ∧
    ((img.shape.length = 4 ∧ img.shape.headD 0 = 1) →
      ∀ bytes, env.encodePNG img = some bytes →
        (process_image env (some img)).1 = some (ReqPart.inline "image/png" bytes) ∧
        (buildContents1 env sp (some img)).1 = ReqContents.parts
          [ReqPart.inline "image/png" bytes,
           ReqPart.text (sp ++ " Use this reference image as style guidance.".data)]) := by
  constructor
  · intro hbad
    refine ⟨?_, ?_, ?_, ?_⟩ <;>
      · simp only [process_image, buildContents1]
        rw [if_neg hbad]
  · intro hgood bytes hb
    refine ⟨?_, ?_⟩ <;>
      · simp only [process_image, buildContents1]
        rw [if_pos hgood, hb]

/-- Witness for C7 (amended): a 3-dimensional tensor is dropped, a valid
(1, 2, 2, 3) tensor is kept. -/
theorem c7_image_validation_witness :
    (process_image env0 (some badImg)).1 = none ∧
    (process_image env0 (some rgbImg)).1 = some (ReqPart.inline "image/png" [137]) :=
  ⟨((c7_image_validation env0 badImg []).1 (by decide)).1,
   ((c7_image_validation env0 rgbImg []).2 (by decide) [137] rfl).1⟩

/-- Appending the empty string on the left is the identity. -/
theorem str_empty_append (s : String) : "" ++ s = s := rfl

/-- The empty string is a substring of anything. -/
theorem hasSubstrS_empty (big : String) : hasSubstrS big "" = true :=
  hasSubstr_of_eq_append big.data [] [] big.data (by simp)

/-- A non-stopping part with no text leaves the accumulated response text
unchanged (multi node). -/
theorem stepM_inr_rt_of_none_text (env : Env) (w h : Nat) (p : RespPart)
    (rt : String) (logs : List String) (hs : stopsB env p = false)
    (ht : p.text = none) :
    ∃ logs2, stepM env w h p rt logs = Sum.inr (rt, logs2) := by
  rcases hpi : p.inline with _ | d
  · exact ⟨logs, stepM_eq_skip env w h p rt logs ht hpi⟩
  · have hd := stopsB_decode_none env p d hs ht hpi
    exact ⟨_, stepM_eq_fail env w h p d rt logs ht hpi hd⟩

/-- When no part stops it, the single-node scan falls through and the final
response text is the initial text followed by the parts' accumulated text. -/
theorem scan1_rt_accum (env : Env) (w h : Nat) :
    ∀ (parts : List RespPart), (∀ p ∈ parts, stopsB env p = false) →
    ∀ rt logs, ∃ logsF,
      scan1 env w h parts rt logs = Sum.inr (rt ++ accumText parts, logsF) := by
  intro parts
  induction parts with
  | nil =>
    intro _ rt logs
    exact ⟨logs, by simp [scan1, accumText]⟩
  | cons p rest ih =>
    intro hns rt logs
    have hp := hns p (List.mem_cons_self p rest)
    have hns2 : ∀ q ∈ rest, stopsB env q = false :=
      fun q hq => hns q (List.mem_cons_of_mem p hq)
    rcases hpt : p.text with _ | s
    · obtain ⟨logs1, hstep⟩ := step1_inr_rt_of_none_text env w h p rt logs hp hpt
      obtain ⟨logsF, hrec⟩ := ih hns2 rt logs1
      refine ⟨logsF, ?_⟩
      rw [scan1_cons_inr env w h p rest rt rt logs logs1 hstep, hrec]
      simp [accumText, hpt]
    · have hstep := step1_eq_text env w h p s rt logs hpt
      obtain ⟨logsF, hrec⟩ := ih hns2 (rt ++ s) (logs ++ [textLog s])
      refine ⟨logsF, ?_⟩
      rw [scan1_cons_inr env w h p rest rt (rt ++ s) logs _ hstep, hrec]
      simp [accumText, hpt, String.append_assoc]

/-- Multi-node version of `scan1_rt_accum` (the found flag is whatever the
inline parts made of it). -/
theorem scanM_rt_accum (env : Env) (w h : Nat) :
    ∀ (parts : List RespPart), (∀ p ∈ parts, stopsB env p = false) →
    ∀ rt logs found, ∃ logsF found2,
      scanM env w h parts rt logs found =
        Sum.inr (rt ++ accumText parts, logsF, found2) := by
  intro parts
  induction parts with
  | nil =>
    intro _ rt logs found
    exact ⟨logs, found, by simp [scanM, accumText]⟩
  | cons p rest ih =>
    intro hns rt logs found
    have hp := hns p (List.mem_cons_self p rest)
    have hns2 : ∀ q ∈ rest, stopsB env q = false :=
      fun q hq => hns q (List.mem_cons_of_mem p hq)
    rcases hpt : p.text with _ | s
    · obtain ⟨logs1, hstep⟩ := stepM_inr_rt_of_none_text env w h p rt logs hp hpt
      obtain ⟨logsF, found2, hrec⟩ := ih hns2 rt logs1
        (found || (p.text.isNone && p.inline.isSome))
      refine ⟨logsF, found2, ?_⟩
      rw [scanM_cons_inr env w h p rest rt rt logs logs1 found hstep, hrec]
      simp [accumText, hpt]
    · have hstep := stepM_eq_text env w h p s rt logs hpt
      obtain ⟨logsF, found2, hrec⟩ := ih hns2 (rt ++ s) (logs ++ [textLog s])
        (found || (p.text.isNone && p.inline.isSome))
      refine ⟨logsF, found2, ?_⟩
      rw [scanM_cons_inr env w h p rest rt (rt ++ s) logs _ found hstep, hrec]
      simp [accumText, hpt, String.append_assoc]

/-- With no inline-data part at all, the multi-node scan falls through with
the accumulated text and an unchanged found flag. -/
theorem scanM_inline_none (env : Env) (w h : Nat) :
    ∀ (parts : List RespPart), (∀ p ∈ parts, p.inline = none) →
    ∀ rt logs found, ∃ logsF,
      scanM env w h parts rt logs found =
        Sum.inr (rt ++ accumText parts, logsF, found) := by
  intro parts
  induction parts with
  | nil =>
    intro _ rt logs found
    exact ⟨logs, by simp [scanM, accumText]⟩
  | cons p rest ih =>
    intro hni rt logs found
    have hpi : p.inline = none := hni p (List.mem_cons_self p rest)
    have hni2 : ∀ q ∈ rest, q.inline = none :=
      fun q hq => hni q (List.mem_cons_of_mem p hq)
    have hfound : (found || (p.text.isNone && p.inline.isSome)) = found := by
      simp [hpi]
    rcases hpt : p.text with _ | s
    · have hstep := stepM_eq_skip env w h p rt logs hpt hpi
      obtain ⟨logsF, hrec⟩ := ih hni2 rt logs found
      refine ⟨logsF, ?_⟩
      rw [scanM_cons_inr env w h p rest rt rt logs logs found hstep, hfound, hrec]
      simp [accumText, hpt]
    · have hstep := stepM_eq_text env w h p s rt logs hpt
      obtain ⟨logsF, hrec⟩ := ih hni2 (rt ++ s) (logs ++ [textLog s]) found
      refine ⟨logsF, ?_⟩
      rw [scanM_cons_inr env w h p rest rt (rt ++ s) logs _ found hstep, hfound, hrec]
      simp [accumText, hpt, String.append_assoc]

/-- When no part stops the scan, the single node falls back to the
placeholder; its returned text contains the accumulated response text, and
contains the fixed no-image-or-text message when none was accumulated. -/
theorem respond1_accum (env : Env) (w h : Nat) (parts : List RespPart)
    (logs2 : List String) (hns : ∀ p ∈ parts, stopsB env p = false) :
    (respond1 env w h logs2 parts).1 = generate_empty_image w h ∧
    hasSubstrS (respond1 env w h logs2 parts).2 (accumText parts) = true ∧
    (accumText parts = "" →
      hasSubstrS (respond1 env w h logs2 parts).2
        "API did not return any image or text" = true) := by
  obtain ⟨logsF, hscan⟩ := scan1_rt_accum env w h parts hns "" logs2
  rw [str_empty_append] at hscan
  refine ⟨by simp only [respond1, hscan], ?_, ?_⟩
  · by_cases ha : accumText parts = ""
    · rw [ha]
      exact hasSubstrS_empty _
    · simp only [respond1, hscan, if_neg ha]
      unfold hasSubstrS
      refine hasSubstr_of_eq_append _
        (("## Processing Log\n" ++
          joinLogs (logsF ++ ["No image data found in API response, returning text only"]) ++
          "\n\n## API Response\n").data)
        (accumText parts).data [] ?_
      simp [str_data_append]
  · intro ha
    rw [ha] at hscan
    simp only [respond1, hscan, if_pos rfl]
    unfold hasSubstrS
    refine hasSubstr_of_eq_append _
      (("## Processing Log\n" ++
        joinLogs (logsF ++ ["No image data found in API response, returning text only"]) ++
        "\n\n## API Response\n").data)
      ("API did not return any image or text".data) [] ?_
    simp [str_data_append]

/-- When no part stops the scan, the multi node falls back to the
placeholder and its returned text contains the accumulated response text
(whether or not an inline part set the found flag). -/
theorem respondM_accum (env : Env) (w h : Nat) (parts : List RespPart)
    (logs2 : List String) (hns : ∀ p ∈ parts, stopsB env p = false) :
    (respondM env w h logs2 parts).1 = generate_empty_image w h ∧
    hasSubstrS (respondM env w h logs2 parts).2 (accumText parts) = true := by
  obtain ⟨logsF, found2, hscan⟩ := scanM_rt_accum env w h parts hns "" logs2 false
  rw [str_empty_append] at hscan
  refine ⟨by simp only [respondM, hscan], ?_⟩
  by_cases ha : accumText parts = ""
  · rw [ha]
    exact hasSubstrS_empty _
  · simp only [respondM, hscan]
    have hrt2 : (if found2 = true then accumText parts
        else if accumText parts = "" then "API did not return any image or text"
        else accumText parts) = accumText parts := by
      cases found2 <;> simp [ha]
    rw [hrt2]
    unfold hasSubstrS
    refine hasSubstr_of_eq_append _
      (("## Processing Log\n" ++
        joinLogs (if found2 = true then logsF
          else logsF ++ ["No image data found in API response, returning text only"]) ++
        "\n\n## API Response\n").data)
      (accumText parts).data [] ?_
    simp [str_data_append]

/-- With no accumulated text and no inline-data part at all, the multi node
emits the fixed no-image-or-text message (the found flag stays false). -/
theorem respondM_fixed (env : Env) (w h : Nat) (parts : List RespPart)
    (logs2 : List String) (hni : ∀ p ∈ parts, p.inline = none)
    (ha : accumText parts = "") :
    hasSubstrS (respondM env w h logs2 parts).2
      "API did not return any image or text" = true := by
  obtain ⟨logsF, hscan⟩ := scanM_inline_none env w h parts hni "" logs2 false
  rw [str_empty_append, ha] at hscan
  simp only [respondM, hscan, Bool.false_eq_true, if_false, if_pos rfl]
  unfold hasSubstrS
  refine hasSubstr_of_eq_append _
    (("## Processing Log\n" ++
      joinLogs (logsF ++ ["No image data found in API response, returning text only"]) ++
      "\n\n## API Response\n").data)
    ("API did not return any image or text".data) [] ?_
  simp [str_data_append]

/-- C9 (amended): for every response in which no part decodes into a valid
image, both entry operations return the placeholder image combined with
whatever response text was accumulated from text parts (the returned text
contains the accumulated text); if no text at all was accumulated, the
single-image node's returned text contains the fixed message that the API
did not return any image or text, while the multi node emits the fixed
message only when additionally no inline-data part was encountered at all
(an undecodable inline part sets `image_found = True`, which suppresses
the message). -/
theorem c9_no_decodable_image (env : Env) (fs : Option String)
    (prompt : List Char) (api_key model : String) (width height : Nat)
    (temperature : ℚ) (seed : Nat)
    (image image1 image2 image3 image4 : Option Tensor) (parts : List RespPart)
    (hapi : env.api = fun _ => ApiOutcome.ok [⟨parts⟩])
    (hkey : api_key.length > 10)
    (hns : ∀ p ∈ parts, stopsB env p = false) :
    ((generate_image env fs prompt api_key model width height temperature seed
        image).1 = generate_empty_image width height) ∧
    ((generate_image_multi env fs prompt api_key model width height temperature
        seed image1 image2 image3 image4).1 = generate_empty_image width height) ∧
    hasSubstrS (generate_image env fs prompt api_key model width height
        temperature seed image).2 (accumText parts) = true ∧
    hasSubstrS (generate_image_multi env fs prompt api_key model width height
        temperature seed image1 image2 image3 image4).2 (accumText parts) = true ∧
    (accumText parts = "" →
      hasSubstrS (generate_image env fs prompt api_key model width height
          temperature seed image).2 "API did not return any image or text" = true) ∧
    (accumText parts = "" → (∀ p ∈ parts, p.inline = none) →
      hasSubstrS (generate_image_multi env fs prompt api_key model width height
          temperature seed image1 image2 image3 image4).2
        "API did not return any image or text" = true) := by
  have hk1 : (get_api_key env.key fs api_key).1 = api_key :=
    get_api_key_fst_long env.key fs api_key hkey
  have hkne : api_key ≠ "" := ne_empty_of_length_gt api_key hkey
  refine ⟨?_, ?_, ?_, ?_, ?_, ?_⟩
  · simp only [generate_image, hk1, hapi, if_neg hkne]
    exact (respond1_accum env width height parts _ hns).1
  · simp only [generate_image_multi, hk1, hapi, if_neg hkne]
    exact (respondM_accum env width height parts _ hns).1
  · simp only [generate_image, hk1, hapi, if_neg hkne]
    exact (respond1_accum env width height parts _ hns).2.1
  · simp only [generate_image_multi, hk1, hapi, if_neg hkne]
    exact (respondM_accum env width height parts _ hns).2
  · intro ha
    simp only [generate_image, hk1, hapi, if_neg hkne]
    exact (respond1_accum env width height parts _ hns).2.2 ha
  · intro ha hni
    simp only [generate_image_multi, hk1, hapi, if_neg hkne]
    exact respondM_fixed env width height parts _ hni ha

/-- Witness for C9 (amended): a single candidate with an empty part list
(so no text is accumulated and no inline part is seen). -/
theorem c9_no_decodable_image_witness :
    hasSubstrS (generate_image envEmptyParts none "p".data "sk1234567890" "m"
        512 512 1 7 none).2 "API did not return any image or text" = true ∧
    hasSubstrS (generate_image_multi envEmptyParts none "p".data "sk1234567890" "m"
        512 512 1 7 none none none none).2 "API did not return any image or text" = true :=
  ⟨(c9_no_decodable_image envEmptyParts none "p".data "sk1234567890" "m" 512 512 1 7
      none none none none none [] rfl (by decide)
      (by intro p hp; cases hp)).2.2.2.2.1 rfl,
   (c9_no_decodable_image envEmptyParts none "p".data "sk1234567890" "m" 512 512 1 7
      none none none none none [] rfl (by decide)
      (by intro p hp; cases hp)).2.2.2.2.2 rfl (by intro p hp; cases hp)⟩

set_option maxRecDepth 100000 in
/-- C9 counterexample: a response whose only part is undecodable inline data
with no text.  The multi node returns the placeholder, but its returned text
does NOT contain the fixed no-image-or-text message, because the mere
presence of the inline part set `image_found = True`. -/
theorem c9_counterexample :
    (generate_image_multi envC9 none "p".data "sk1234567890" "m" 512 512 1 7
        none none none none).1 = generate_empty_image 512 512 ∧
    hasSubstrS (generate_image_multi envC9 none "p".data "sk1234567890" "m" 512 512 1 7
        none none none none).2 "API did not return any image or text" = false := by
  refine ⟨rfl, ?_⟩
  decide

/-- C10: the outbound request — and in fact the entire result — is
independent of the user-supplied `model` input: both entry operations ignore
it and `buildApiCall` always carries the hardcoded model identifier. -/
theorem c10_model_input_ignored (env : Env) (fs : Option String)
    (prompt : List Char) (api_key m1 m2 : String)
    (width height : Nat) (temperature : ℚ) (seed : Nat)
    (image image1 image2 image3 image4 : Option Tensor) :
    generate_image env fs prompt api_key m1 width height temperature seed image =
      generate_image env fs prompt api_key m2 width height temperature seed image ∧
    generate_image_multi env fs prompt api_key m1 width height temperature seed
        image1 image2 image3 image4 =
      generate_image_multi env fs prompt api_key m2 width height temperature seed
        image1 image2 image3 image4 ∧
    ∀ contents cfg, (buildApiCall contents cfg).model = "models/gemini-2.0-flash-exp" :=
  ⟨rfl, rfl, fun _ _ => rfl⟩
